import Mathlib

/-!
Shallow embedding of `src/api-client.ts` (mcp-ragdocs).

The file models the single `ApiClient` facade: environment-driven
construction, the browser handle lifecycle (`initBrowser` / `cleanup`),
embedding generation (`getEmbeddings` with its random fallback
`generateRandomEmbedding`), and vector-collection provisioning
(`initCollection` with its error-classifying catch block).

External collaborators (the Qdrant vector store, the OpenAI-compatible
embeddings endpoint, the Playwright browser) are modelled as oracles:
their responses are inputs to the embedded functions, exactly as the
TypeScript code consumes them through `await`ed calls.  JavaScript
numbers are modelled as real numbers; JavaScript falsiness of a
string-or-undefined value is modelled explicitly by `truthy`.
-/

namespace McpRagdocs

/-- JavaScript truthiness of a value that is either `undefined` (`none`)
or a string: `undefined` and the empty string are falsy. -/
def truthy : Option String → Bool
  | none => false
  | some s => !(s == "")

/-! ### Environment and construction (api-client.ts lines 7-40) -/

/-- The four environment variables read at module load (lines 8-11).
`none` models an unset variable. -/
structure Env where
  OPENAI_API_KEY : Option String
  OPENAI_BASE_URL : Option String
  QDRANT_URL : Option String
  QDRANT_API_KEY : Option String

/-- The handles held by a constructed `ApiClient` (lines 21-40):
the eagerly created Qdrant client, the OpenAI client created only when
`OPENAI_API_KEY` is truthy, and the browser field, initially unset. -/
structure ApiClientState where
  qdrantClient : Bool
  openaiClient : Bool
  browser : Option Nat

/-- Module load plus construction (lines 13-19 and 26-40): the module
throws before the class is even defined when `QDRANT_URL` or
`QDRANT_API_KEY` is falsy; otherwise the constructor builds the Qdrant
client and, if `OPENAI_API_KEY` is truthy, the OpenAI client. -/
def mkApiClient (env : Env) : Except String ApiClientState :=
  if truthy env.QDRANT_URL = false then
    Except.error "QDRANT_URL environment variable is required for cloud storage"
  else if truthy env.QDRANT_API_KEY = false then
    Except.error "QDRANT_API_KEY environment variable is required for cloud storage"
  else
    Except.ok { qdrantClient := true, openaiClient := truthy env.OPENAI_API_KEY, browser := none }

/-! ### Browser lifecycle (api-client.ts lines 42-52)

The browser field together with instrumentation counters: `launches`
counts `chromium.launch()` calls, `closeCalls` counts
`browser.close()` calls.  Handles are identified by a number supplied
by the launch oracle. -/

structure BrowserState where
  browser : Option Nat
  launches : Nat
  closeCalls : Nat

/-- The state of a freshly constructed `ApiClient`: no browser yet. -/
def initialBrowserState : BrowserState :=
  { browser := none, launches := 0, closeCalls := 0 }

/-- `initBrowser` (lines 42-46): launch and store a handle only when the
field is unset. -/
def initBrowser (s : BrowserState) (handle : Nat) : BrowserState :=
  match s.browser with
  | none => { s with browser := some handle, launches := s.launches + 1 }
  | some _ => s

/-- `cleanup` (lines 48-52): when a handle is present, call `close()` on
it.  The field is NOT cleared by the source code. -/
def cleanup (s : BrowserState) : BrowserState :=
  match s.browser with
  | none => s
  | some _ => { s with closeCalls := s.closeCalls + 1 }

/-- A call against the browser lifecycle: `initBrowser` (with the handle
the launch oracle would return) or `cleanup`. -/
inductive BrowserOp where
  | init (handle : Nat)
  | cleanup

/-- Run one lifecycle call. -/
def browserStep (s : BrowserState) : BrowserOp → BrowserState
  | BrowserOp.init h => initBrowser s h
  | BrowserOp.cleanup => cleanup s

/-- Run a sequence of lifecycle calls. -/
def runOps (s : BrowserState) (ops : List BrowserOp) : BrowserState :=
  ops.foldl browserStep s

/-! ### Collection provisioning (api-client.ts lines 107-145) -/

/-- Error codes of `McpError` as used by this file. -/
inductive ErrorCode where
  | InvalidRequest
  | InternalError
deriving DecidableEq

/-- A typed `McpError` as thrown by the catch blocks. -/
structure McpError where
  code : ErrorCode
  message : String
deriving DecidableEq

/-- A JavaScript exception value as seen by a catch block: whether it is
an `Error` instance, and its message (for a non-`Error` value, the
string the template literal would interpolate). -/
structure JsError where
  isErrorInstance : Bool
  message : String

/-- Substring test, modelling JavaScript `String.prototype.includes`. -/
def strContains (s pat : String) : Bool :=
  decide (pat.toList <:+: s.toList)

/-- String interpolation of a caught value, as in the template literal
on line 142: an `Error` instance prints as `Error: <message>`. -/
def errToString (e : JsError) : String :=
  if e.isErrorInstance then "Error: " ++ e.message else e.message

/-- The catch block of `initCollection` (lines 126-144): classify the
caught value by `instanceof Error` and message substrings. -/
def classifyInitError (e : JsError) : McpError :=
  if e.isErrorInstance && strContains e.message "unauthorized" then
    { code := ErrorCode.InvalidRequest
      message := "Failed to authenticate with Qdrant cloud. Please check your API key." }
  else if e.isErrorInstance &&
      (strContains e.message "ECONNREFUSED" || strContains e.message "ETIMEDOUT") then
    { code := ErrorCode.InternalError
      message := "Failed to connect to Qdrant cloud. Please check your QDRANT_URL." }
  else
    { code := ErrorCode.InternalError
      message := "Failed to initialize Qdrant cloud collection: " ++ errToString e }

/-- The fixed collection configuration passed to `createCollection`
(lines 113-124). -/
structure CollectionConfig where
  size : Nat
  distance : String
  default_segment_number : Nat
  memmap_threshold : Nat
  replication_factor : Nat
deriving DecidableEq

/-- The descriptor literal from the source: dimension 768, cosine
distance, two segments, memmap threshold 20000, replication factor 2. -/
def collectionDescriptor : CollectionConfig :=
  { size := 768
    distance := "Cosine"
    default_segment_number := 2
    memmap_threshold := 20000
    replication_factor := 2 }

/-- `initCollection` (lines 107-145).  `getOutcome` is the vector
store's reply to `getCollections()` (the list of existing collection
names, or a thrown error); `createOutcome` is its reply to
`createCollection`.  The result records the creation call performed:
`none` when the collection already existed, `some (name, descriptor)`
when it was created. -/
def initCollection (getOutcome : Except JsError (List String))
    (createOutcome : Except JsError Unit) (name : String) :
    Except McpError (Option (String × CollectionConfig)) :=
  match getOutcome with
  | Except.error e => Except.error (classifyInitError e)
  | Except.ok cols =>
    if cols.any (fun c => c == name) then
      Except.ok none
    else
      match createOutcome with
      | Except.error e => Except.error (classifyInitError e)
      | Except.ok _ => Except.ok (some (name, collectionDescriptor))

/-! ### Embedding generation (api-client.ts lines 54-105)

JavaScript numbers are modelled as real numbers.  The successive
`Math.random()` results are an oracle `rand : Nat → ℝ` (call `i`
returns `rand i`); the HTTP and SDK calls are oracles for the remote
services' replies. -/

/-- Sum of squares, modelling
`embedding.reduce((sum, val) => sum + val * val, 0)` (line 103). -/
def sumSq (l : List ℝ) : ℝ :=
  l.foldl (fun sum val => sum + val * val) 0

/-- Euclidean magnitude `Math.sqrt(sumSq l)` (line 103). -/
noncomputable def euclidNorm (l : List ℝ) : ℝ :=
  Real.sqrt (sumSq l)

/-- `generateRandomEmbedding` (lines 101-105): draw `dimension` values
`Math.random() * 2 - 1`, then divide each by the Euclidean magnitude of
the drawn vector.  No guard against a zero magnitude exists in the
source. -/
noncomputable def generateRandomEmbedding (dimension : Nat) (rand : Nat → ℝ) : List ℝ :=
  let embedding := (List.range dimension).map (fun i => rand i * 2 - 1)
  let magnitude := euclidNorm embedding
  embedding.map (fun val => val / magnitude)

/-- The embeddings-relevant part of the configuration captured at module
load (lines 8-9). -/
structure EmbConfig where
  openaiApiKey : Option String
  openaiBaseUrl : Option String

/-- The HTTP POST issued on the direct (Axios) path (lines 63-71):
target URL, body fields, and the optional Authorization header. -/
structure HttpRequest where
  url : String
  model : String
  input : String
  authHeader : Option String

/-- An element of the `data` array of the direct-HTTP response body;
`embedding` is `none` when the field is absent (falsy). -/
structure DirectEntry where
  embedding : Option (List ℝ)

/-- The direct-HTTP response body; `data` is `none` when absent. -/
structure DirectBody where
  data : Option (List DirectEntry)

/-- An element of the `data` array of the SDK response, typed by the
OpenAI SDK: `embedding` is always present. -/
structure SdkEntry where
  embedding : List ℝ

/-- The SDK response to `embeddings.create`. -/
structure SdkBody where
  data : List SdkEntry

/-- The exceptions that can be thrown inside the `try` block of
`getEmbeddings`: a failed network call, the `Invalid response format`
error (line 76), the `McpError` for a missing OpenAI client
(lines 80-83), and the TypeError raised by `response.data[0].embedding`
when the SDK's `data` array is empty (line 90). -/
inductive EmbFailure where
  | network (msg : String)
  | invalidResponseFormat
  | noOpenAiClient
  | sdkTypeError
deriving DecidableEq

/-- Suffix test, modelling JavaScript `String.prototype.endsWith`
(character based). -/
def strEndsWith (s pat : String) : Bool :=
  decide (pat.toList <:+ s.toList)

/-- URL selection for the direct path (lines 59-61): append
`/embeddings` when the base already ends in `/v1`, else
`/v1/embeddings`. -/
def embeddingsUrl (base : String) : String :=
  if strEndsWith base "/v1" then base ++ "/embeddings" else base ++ "/v1/embeddings"

/-- The request built on the direct path (lines 63-71): model
`nomic-embed-text`, the input text, and a bearer header exactly when
`OPENAI_API_KEY` is truthy. -/
def directRequest (cfg : EmbConfig) (base text : String) : HttpRequest :=
  { url := embeddingsUrl base
    model := "nomic-embed-text"
    input := text
    authHeader :=
      match cfg.openaiApiKey with
      | none => none
      | some k => if k == "" then none else some ("Bearer " ++ k) }

/-- The SDK branch (lines 77-90): throw `McpError` when no OpenAI client
was constructed (the constructor creates it exactly when
`OPENAI_API_KEY` is truthy, line 34); otherwise call the SDK and read
`response.data[0].embedding` without any shape check, which throws a
TypeError when `data` is empty. -/
def sdkBranch (cfg : EmbConfig) (sdk : Except String SdkBody) :
    Except EmbFailure (List ℝ) :=
  if truthy cfg.openaiApiKey = false then
    Except.error EmbFailure.noOpenAiClient
  else
    match sdk with
    | Except.error msg => Except.error (EmbFailure.network msg)
    | Except.ok body =>
      match body.data with
      | [] => Except.error EmbFailure.sdkTypeError
      | entry :: _ => Except.ok entry.embedding

/-- The `try` block of `getEmbeddings` (lines 55-91).  `net` is the
remote endpoint's reply to the direct HTTP POST (`Except.ok none`
models a falsy response body); `sdk` is the SDK's reply.  When
`OPENAI_BASE_URL` is truthy the direct path runs and checks the body
shape `data[0].embedding` (lines 73-76); otherwise the SDK branch
runs. -/
def getEmbeddingsTry (cfg : EmbConfig) (text : String)
    (net : HttpRequest → Except String (Option DirectBody))
    (sdk : Except String SdkBody) : Except EmbFailure (List ℝ) :=
  match cfg.openaiBaseUrl with
  | none => sdkBranch cfg sdk
  | some base =>
    if base == "" then sdkBranch cfg sdk
    else
      match net (directRequest cfg base text) with
      | Except.error msg => Except.error (EmbFailure.network msg)
      | Except.ok none => Except.error EmbFailure.invalidResponseFormat
      | Except.ok (some body) =>
        match body.data with
        | none => Except.error EmbFailure.invalidResponseFormat
        | some [] => Except.error EmbFailure.invalidResponseFormat
        | some (entry :: _) =>
          match entry.embedding with
          | none => Except.error EmbFailure.invalidResponseFormat
          | some emb => Except.ok emb

/-- `getEmbeddings` (lines 54-99): the whole `try` body wrapped by the
catch-all that substitutes `generateRandomEmbedding(768)` for any
thrown error (lines 92-98).  The `Except` result type records whether
an exception propagates to the caller. -/
noncomputable def getEmbeddings (cfg : EmbConfig) (text : String)
    (net : HttpRequest → Except String (Option DirectBody))
    (sdk : Except String SdkBody) (rand : Nat → ℝ) :
    Except EmbFailure (List ℝ) :=
  match getEmbeddingsTry cfg text net sdk with
  | Except.ok v => Except.ok v
  | Except.error _ => Except.ok (generateRandomEmbedding 768 rand)

/-! ## Helper lemmas -/

/-- `cleanup` never changes the stored browser field. -/
theorem cleanup_browser_eq (s : BrowserState) : (cleanup s).browser = s.browser := by
  rcases s with ⟨b, l, c⟩
  cases b <;> rfl

/-- `cleanup` never changes the launch counter. -/
theorem cleanup_launches_eq (s : BrowserState) : (cleanup s).launches = s.launches := by
  rcases s with ⟨b, l, c⟩
  cases b <;> rfl

/-- Invariant of the browser lifecycle: a state with no handle and no
launches yet, or at most one launch, keeps at most one launch under any
sequence of calls. -/
theorem runOps_invariant (ops : List BrowserOp) (s : BrowserState)
    (h1 : s.browser = none → s.launches = 0) (h2 : s.launches ≤ 1) :
    ((runOps s ops).browser = none → (runOps s ops).launches = 0) ∧
      (runOps s ops).launches ≤ 1 := by
  induction ops generalizing s with
  | nil => exact ⟨h1, h2⟩
  | cons op rest ih =>
    have hstep : ((browserStep s op).browser = none → (browserStep s op).launches = 0) ∧
        (browserStep s op).launches ≤ 1 := by
      cases op with
      | init h =>
        rcases hb : s.browser with _ | b
        · refine ⟨?_, ?_⟩
          · intro hc
            simp [browserStep, initBrowser, hb] at hc
          · simp [browserStep, initBrowser, hb, h1 hb]
        · have hs : browserStep s (BrowserOp.init h) = s := by
            simp [browserStep, initBrowser, hb]
          rw [hs]
          exact ⟨h1, h2⟩
      | cleanup =>
        refine ⟨?_, ?_⟩
        · intro hc
          rw [browserStep, cleanup_browser_eq] at hc
          rw [browserStep, cleanup_launches_eq]
          exact h1 hc
        · rw [browserStep, cleanup_launches_eq]
          exact h2
    have hrun : runOps s (op :: rest) = runOps (browserStep s op) rest := rfl
    rw [hrun]
    exact ih (browserStep s op) hstep.1 hstep.2

/-! ## Claims -/

/-- C8: if the vector-store URL or API key environment value is absent,
construction fails with an error and no `ApiClient` state (hence no
client handle) is ever produced. -/
theorem construction_requires_qdrant_env (env : Env)
    (h : env.QDRANT_URL = none ∨ env.QDRANT_API_KEY = none) :
    (∃ msg, mkApiClient env = Except.error msg) ∧
      ∀ st : ApiClientState, mkApiClient env ≠ Except.ok st := by
  have herr : ∃ msg, mkApiClient env = Except.error msg := by
    unfold mkApiClient
    by_cases hu : truthy env.QDRANT_URL = false
    · rw [if_pos hu]
      exact ⟨_, rfl⟩
    · have hk : truthy env.QDRANT_API_KEY = false := by
        rcases h with h | h
        · exact absurd (by simp [truthy, h]) hu
        · simp [truthy, h]
      rw [if_neg hu, if_pos hk]
      exact ⟨_, rfl⟩
  obtain ⟨msg, hmsg⟩ := herr
  exact ⟨⟨msg, hmsg⟩, fun st hst => by rw [hmsg] at hst; cases hst⟩

/-- Witness for C8 at a concrete environment with both values unset. -/
theorem construction_requires_qdrant_env_witness :
    (∃ msg, mkApiClient ⟨none, none, none, none⟩ = Except.error msg) ∧
      ∀ st : ApiClientState, mkApiClient ⟨none, none, none, none⟩ ≠ Except.ok st :=
  construction_requires_qdrant_env ⟨none, none, none, none⟩ (Or.inl rfl)

/-- C7: `initBrowser` is idempotent — with a handle present it does
nothing; with none it stores one handle and counts one launch; a second
call right after is a no-op, so two successive calls from the initial
state perform exactly one launch. -/
theorem initBrowser_idempotent (s : BrowserState) (h1 h2 : Nat) :
    (∀ b, s.browser = some b → initBrowser s h1 = s) ∧
      (s.browser = none →
        initBrowser s h1 = { s with browser := some h1, launches := s.launches + 1 }) ∧
      initBrowser (initBrowser s h1) h2 = initBrowser s h1 ∧
      (initBrowser (initBrowser initialBrowserState h1) h2).launches = 1 := by
  refine ⟨?_, ?_, ?_, ?_⟩
  · intro b hb
    simp [initBrowser, hb]
  · intro hb
    simp [initBrowser, hb]
  · rcases hb : s.browser with _ | b
    · simp [initBrowser, hb]
    · simp [initBrowser, hb]
  · rfl

/-- Witness for C7: from the initial state, the first call stores the
handle and the second call is a no-op leaving one launch. -/
theorem initBrowser_idempotent_witness :
    initBrowser initialBrowserState 0 =
        { browser := some 0, launches := 1, closeCalls := 0 } ∧
      (initBrowser (initBrowser initialBrowserState 0) 1).launches = 1 := by
  have h := initBrowser_idempotent initialBrowserState 0 1
  exact ⟨h.2.1 rfl, h.2.2.2⟩

/-- C6 counterexample: `cleanup` on a state holding a handle does NOT
make the handle absent — the source never clears `this.browser`. -/
theorem cleanup_retains_handle_counterexample :
    (cleanup { browser := some 0, launches := 1, closeCalls := 0 }).browser = some 0 ∧
      ¬(cleanup { browser := some 0, launches := 1, closeCalls := 0 }).browser = none := by
  exact ⟨rfl, by simp [cleanup]⟩

/-- C6 amended: `cleanup` with no handle does nothing (safe when
`initBrowser` was never called, and never raises); with a handle it
calls `close()` once but retains the stored handle, so a second
`cleanup` calls `close()` again. -/
theorem cleanup_amended (s : BrowserState) :
    (s.browser = none → cleanup s = s) ∧
      ∀ b, s.browser = some b →
        cleanup s = { s with closeCalls := s.closeCalls + 1 } ∧
          (cleanup s).browser = some b ∧
          (cleanup (cleanup s)).closeCalls = s.closeCalls + 2 := by
  refine ⟨?_, ?_⟩
  · intro hb
    simp [cleanup, hb]
  · intro b hb
    refine ⟨by simp [cleanup, hb], ?_, ?_⟩
    · rw [cleanup_browser_eq]
      exact hb
    · simp [cleanup, hb]

/-- Witness for C6's amended claim at concrete states. -/
theorem cleanup_amended_witness :
    cleanup initialBrowserState = initialBrowserState ∧
      cleanup { browser := some 5, launches := 1, closeCalls := 0 } =
        { browser := some 5, launches := 1, closeCalls := 1 } := by
  refine ⟨(cleanup_amended initialBrowserState).1 rfl, ?_⟩
  exact ((cleanup_amended { browser := some 5, launches := 1, closeCalls := 0 }).2 5 rfl).1

/-- C10: the browser field is never cleared — `cleanup` keeps it; after
a `cleanup` on a present handle, `initBrowser` still does nothing (no
relaunch); a second `cleanup` invokes `close()` on the retained handle
again; and over every sequence of calls from the initial state at most
one launch ever occurs. -/
theorem browser_handle_never_cleared (s : BrowserState) (h : Nat) (ops : List BrowserOp) :
    (cleanup s).browser = s.browser ∧
      (∀ b, s.browser = some b → initBrowser (cleanup s) h = cleanup s) ∧
      (∀ b, s.browser = some b → (cleanup (cleanup s)).closeCalls = s.closeCalls + 2) ∧
      (runOps initialBrowserState ops).launches ≤ 1 := by
  refine ⟨cleanup_browser_eq s, ?_, ?_, ?_⟩
  · intro b hb
    have hcb : (cleanup s).browser = some b := by rw [cleanup_browser_eq]; exact hb
    simp [initBrowser, hcb]
  · intro b hb
    simp [cleanup, hb]
  · exact (runOps_invariant ops initialBrowserState (fun _ => rfl) (by simp [initialBrowserState])).2

/-- Witness for C10 at a concrete state and call sequence. -/
theorem browser_handle_never_cleared_witness :
    (cleanup { browser := some 3, launches := 1, closeCalls := 0 }).browser = some 3 ∧
      initBrowser (cleanup { browser := some 3, launches := 1, closeCalls := 0 }) 7 =
        cleanup { browser := some 3, launches := 1, closeCalls := 0 } ∧
      (cleanup (cleanup { browser := some 3, launches := 1, closeCalls := 0 })).closeCalls = 2 ∧
      (runOps initialBrowserState
        [BrowserOp.init 1, BrowserOp.cleanup, BrowserOp.init 2]).launches ≤ 1 := by
  have h := browser_handle_never_cleared { browser := some 3, launches := 1, closeCalls := 0 } 7
    [BrowserOp.init 1, BrowserOp.cleanup, BrowserOp.init 2]
  exact ⟨h.1, h.2.1 3 rfl, h.2.2.1 3 rfl, h.2.2.2⟩

/-- C4: `initCollection` is idempotent — when the store already lists
the name it performs no creation call and succeeds; otherwise the first
call performs exactly one creation and a second call on the resulting
store performs none and does not error. -/
theorem initCollection_idempotent (st : List String) (name : String)
    (co : Except JsError Unit) :
    (st.any (fun c => c == name) = true →
        initCollection (Except.ok st) co name = Except.ok none) ∧
      (st.any (fun c => c == name) = false →
        initCollection (Except.ok st) (Except.ok ()) name =
            Except.ok (some (name, collectionDescriptor)) ∧
          initCollection (Except.ok (st ++ [name])) co name = Except.ok none) := by
  refine ⟨?_, ?_⟩
  · intro h
    simp [initCollection, h]
  · intro h
    refine ⟨by simp [initCollection, h], ?_⟩
    have happ : (st ++ [name]).any (fun c => c == name) = true := by
      simp [List.any_append]
    simp [initCollection, happ]

/-- Witness for C4: creating `docs` in an empty store, then re-running
on the store now listing it. -/
theorem initCollection_idempotent_witness :
    initCollection (Except.ok []) (Except.ok ()) "docs" =
        Except.ok (some ("docs", collectionDescriptor)) ∧
      initCollection (Except.ok ["docs"]) (Except.ok ()) "docs" = Except.ok none :=
  (initCollection_idempotent [] "docs" (Except.ok ())).2 rfl

/-- C5: every error thrown during the query or creation step surfaces
as `classifyInitError` of it, and for an `Error` instance the
classification is by message substring — `unauthorized` yields the
invalid-request authentication error blaming the API key; otherwise
`ECONNREFUSED` or `ETIMEDOUT` yields the internal connectivity error
blaming the URL; otherwise a generic internal error wrapping the
original message. -/
theorem initCollection_error_classification (e : JsError) (st : List String)
    (name : String) (hi : e.isErrorInstance = true) :
    (∀ co, initCollection (Except.error e) co name = Except.error (classifyInitError e)) ∧
      (st.any (fun c => c == name) = false →
        initCollection (Except.ok st) (Except.error e) name =
          Except.error (classifyInitError e)) ∧
      (strContains e.message "unauthorized" = true →
        classifyInitError e =
          { code := ErrorCode.InvalidRequest
            message := "Failed to authenticate with Qdrant cloud. Please check your API key." }) ∧
      (strContains e.message "unauthorized" = false →
        (strContains e.message "ECONNREFUSED" = true ∨
            strContains e.message "ETIMEDOUT" = true) →
        classifyInitError e =
          { code := ErrorCode.InternalError
            message := "Failed to connect to Qdrant cloud. Please check your QDRANT_URL." }) ∧
      (strContains e.message "unauthorized" = false →
        strContains e.message "ECONNREFUSED" = false →
        strContains e.message "ETIMEDOUT" = false →
        classifyInitError e =
          { code := ErrorCode.InternalError
            message := "Failed to initialize Qdrant cloud collection: " ++ errToString e }) := by
  refine ⟨?_, ?_, ?_, ?_, ?_⟩
  · intro co
    rfl
  · intro h
    simp [initCollection, h]
  · intro h
    simp [classifyInitError, hi, h]
  · intro h hc
    rcases hc with hc | hc <;> simp [classifyInitError, hi, h, hc]
  · intro h hc ht
    simp [classifyInitError, hi, h, hc, ht]

/-- Witness for C5: an authorization failure message classifies as the
invalid-request authentication error. -/
theorem initCollection_error_classification_witness :
    initCollection (Except.error ⟨true, "401 unauthorized"⟩) (Except.ok ()) "docs" =
      Except.error
        { code := ErrorCode.InvalidRequest
          message := "Failed to authenticate with Qdrant cloud. Please check your API key." } := by
  have h := initCollection_error_classification ⟨true, "401 unauthorized"⟩ [] "docs" rfl
  rw [h.1 (Except.ok ()), h.2.2.1 (by decide)]

/-! ## Embedding lemmas and claims -/

/-- Unfolding of the fold in `sumSq` over an arbitrary accumulator. -/
theorem sumSq_foldl (l : List ℝ) (a : ℝ) :
    l.foldl (fun sum val => sum + val * val) a = a + (l.map (fun val => val * val)).sum := by
  induction l generalizing a with
  | nil => simp
  | cons x xs ih => simp [List.foldl_cons, ih, add_assoc]

/-- `sumSq` is the sum of the squares. -/
theorem sumSq_eq_sum (l : List ℝ) : sumSq l = (l.map (fun val => val * val)).sum := by
  simpa using sumSq_foldl l 0

/-- `sumSq` on a cons. -/
theorem sumSq_cons (a : ℝ) (l : List ℝ) : sumSq (a :: l) = a * a + sumSq l := by
  simp [sumSq_eq_sum]

/-- `sumSq` is nonnegative. -/
theorem sumSq_nonneg (l : List ℝ) : 0 ≤ sumSq l := by
  rw [sumSq_eq_sum]
  apply List.sum_nonneg
  intro x hx
  obtain ⟨v, _, rfl⟩ := List.mem_map.mp hx
  exact mul_self_nonneg v

/-- `sumSq` is positive as soon as one member is nonzero. -/
theorem sumSq_pos (l : List ℝ) (x : ℝ) (hx : x ∈ l) (hx0 : x ≠ 0) : 0 < sumSq l := by
  induction l with
  | nil => cases hx
  | cons a xs ih =>
    rw [sumSq_cons]
    rcases List.mem_cons.mp hx with h | h
    · subst h
      exact add_pos_of_pos_of_nonneg (mul_self_pos.mpr hx0) (sumSq_nonneg xs)
    · exact add_pos_of_nonneg_of_pos (mul_self_nonneg a) (ih h)

/-- Dividing every entry by `c` divides `sumSq` by `c ^ 2`. -/
theorem sumSq_map_div (l : List ℝ) (c : ℝ) :
    sumSq (l.map (fun val => val / c)) = sumSq l / c ^ 2 := by
  induction l with
  | nil => simp [sumSq]
  | cons a xs ih =>
    rw [List.map_cons, sumSq_cons, sumSq_cons, ih, add_div]
    have : a / c * (a / c) = a * a / c ^ 2 := by
      rw [div_mul_div_comm, sq]
    rw [this]

/-- `sumSq` of a list of zeros is zero. -/
theorem sumSq_replicate_zero (n : Nat) : sumSq (List.replicate n (0 : ℝ)) = 0 := by
  induction n with
  | zero => simp [sumSq]
  | succ m ih => simp [List.replicate_succ, sumSq_cons, ih]

/-- The fallback generator always produces a vector of the requested
dimension. -/
theorem generateRandomEmbedding_length (dimension : Nat) (rand : Nat → ℝ) :
    (generateRandomEmbedding dimension rand).length = dimension := by
  simp [generateRandomEmbedding]

/-- C1: `getEmbeddings` never propagates an error — on every input and
every outcome of the embedding paths it returns a vector, and whenever
the try block throws, the returned vector is the locally generated
fallback. -/
theorem getEmbeddings_never_propagates (cfg : EmbConfig) (text : String)
    (net : HttpRequest → Except String (Option DirectBody))
    (sdk : Except String SdkBody) (rand : Nat → ℝ) :
    (∃ v, getEmbeddings cfg text net sdk rand = Except.ok v) ∧
      ∀ e, getEmbeddingsTry cfg text net sdk = Except.error e →
        getEmbeddings cfg text net sdk rand =
          Except.ok (generateRandomEmbedding 768 rand) := by
  refine ⟨?_, ?_⟩
  · unfold getEmbeddings
    cases h : getEmbeddingsTry cfg text net sdk
    · exact ⟨_, rfl⟩
    · exact ⟨_, rfl⟩
  · intro e he
    unfold getEmbeddings
    rw [he]

/-- Witness for C1: with no configuration at all the missing-client
error is thrown and caught, and the fallback vector is returned. -/
theorem getEmbeddings_never_propagates_witness :
    getEmbeddings ⟨none, none⟩ "hello" (fun _ => Except.error "ECONNREFUSED")
        (Except.error "ECONNREFUSED") (fun _ => 0) =
      Except.ok (generateRandomEmbedding 768 (fun _ => 0)) :=
  (getEmbeddings_never_propagates ⟨none, none⟩ "hello"
      (fun _ => Except.error "ECONNREFUSED") (Except.error "ECONNREFUSED") (fun _ => 0)).2
    EmbFailure.noOpenAiClient rfl

/-- C2 counterexample: on the direct-HTTP success path `getEmbeddings`
returns the service's embedding unchanged, so a five-element response
yields a five-element result, not 768. -/
theorem getEmbeddings_length_counterexample :
    getEmbeddings ⟨none, some "http://localhost:11434"⟩ "text"
        (fun _ => Except.ok (some ⟨some [⟨some [1, 2, 3, 4, 5]⟩]⟩))
        (Except.error "unused") (fun _ => 0) =
      Except.ok [(1 : ℝ), 2, 3, 4, 5] ∧
      [(1 : ℝ), 2, 3, 4, 5].length ≠ 768 := by
  refine ⟨rfl, by simp⟩

/-- C2 amended: the fallback path always returns exactly 768 numbers,
while the direct-HTTP and SDK success paths return the service's
embedding unchanged, with no length validation. -/
theorem getEmbeddings_length_amended (cfg : EmbConfig) (text : String)
    (net : HttpRequest → Except String (Option DirectBody))
    (sdk : Except String SdkBody) (rand : Nat → ℝ) :
    (generateRandomEmbedding 768 rand).length = 768 ∧
      (∀ e, getEmbeddingsTry cfg text net sdk = Except.error e →
        ∃ v, getEmbeddings cfg text net sdk rand = Except.ok v ∧ v.length = 768) ∧
      ∀ v, getEmbeddingsTry cfg text net sdk = Except.ok v →
        getEmbeddings cfg text net sdk rand = Except.ok v := by
  refine ⟨generateRandomEmbedding_length 768 rand, ?_, ?_⟩
  · intro e he
    refine ⟨generateRandomEmbedding 768 rand, ?_, generateRandomEmbedding_length 768 rand⟩
    unfold getEmbeddings
    rw [he]
  · intro v hv
    unfold getEmbeddings
    rw [hv]

/-- Witness for C2's amended claim: a failed network call yields a
768-length result. -/
theorem getEmbeddings_length_amended_witness :
    ∃ v, getEmbeddings ⟨none, some "http://x"⟩ "t" (fun _ => Except.error "down")
        (Except.error "down") (fun _ => 0) = Except.ok v ∧ v.length = 768 :=
  (getEmbeddings_length_amended ⟨none, some "http://x"⟩ "t" (fun _ => Except.error "down")
      (Except.error "down") (fun _ => 0)).2.1
    (EmbFailure.network "down") rfl

/-- C3 counterexample: the draw where every `Math.random()` result is
`1/2` lies in the allowed range `[0, 1)`, yet every drawn component is
zero, the magnitude is zero, and the returned vector has Euclidean norm
`0`, not `1` — the source has no guard against a zero magnitude. -/
theorem fallback_norm_counterexample :
    (∀ i : Nat, 0 ≤ ((1 : ℝ) / 2) ∧ ((1 : ℝ) / 2) < 1) ∧
      euclidNorm (generateRandomEmbedding 768 (fun _ => (1 : ℝ) / 2)) = 0 ∧
      euclidNorm (generateRandomEmbedding 768 (fun _ => (1 : ℝ) / 2)) ≠ 1 := by
  have hzero : euclidNorm (List.replicate 768 (0 : ℝ)) = 0 := by
    unfold euclidNorm
    rw [sumSq_replicate_zero]
    exact Real.sqrt_zero
  have h1 : (List.range 768).map (fun i => (fun _ : Nat => (1 : ℝ) / 2) i * 2 - 1) =
      List.replicate 768 0 := by
    refine List.eq_replicate_iff.mpr ⟨by rw [List.length_map, List.length_range], ?_⟩
    intro b hb
    obtain ⟨i, _, rfl⟩ := List.mem_map.mp hb
    norm_num
  have hkey : generateRandomEmbedding 768 (fun _ => (1 : ℝ) / 2) = List.replicate 768 0 := by
    show ((List.range 768).map (fun i => (fun _ : Nat => (1 : ℝ) / 2) i * 2 - 1)).map
        (fun val => val /
          euclidNorm ((List.range 768).map (fun i => (fun _ : Nat => (1 : ℝ) / 2) i * 2 - 1))) =
      List.replicate 768 0
    rw [h1, hzero, List.map_replicate, zero_div]
  refine ⟨fun i => by norm_num, ?_, ?_⟩
  · rw [hkey]
    exact hzero
  · rw [hkey, hzero]
    norm_num

/-- C3 amended: whenever at least one drawn component is nonzero — in
particular on every draw except the all-`1/2` one — the fallback vector
has Euclidean norm exactly `1`. -/
theorem fallback_unit_norm (rand : Nat → ℝ)
    (hr : ∀ i, 0 ≤ rand i ∧ rand i < 1)
    (hnz : ∃ i, i < 768 ∧ rand i * 2 - 1 ≠ 0) :
    euclidNorm (generateRandomEmbedding 768 rand) = 1 := by
  obtain ⟨i, hi, hne⟩ := hnz
  have hmem : rand i * 2 - 1 ∈ (List.range 768).map (fun j => rand j * 2 - 1) :=
    List.mem_map.mpr ⟨i, List.mem_range.mpr hi, rfl⟩
  have hpos : 0 < sumSq ((List.range 768).map (fun j => rand j * 2 - 1)) :=
    sumSq_pos _ _ hmem hne
  show Real.sqrt (sumSq (((List.range 768).map (fun j => rand j * 2 - 1)).map
    (fun val => val / Real.sqrt (sumSq ((List.range 768).map (fun j => rand j * 2 - 1)))))) = 1
  rw [sumSq_map_div, Real.sq_sqrt hpos.le, div_self hpos.ne']
  exact Real.sqrt_one

/-- Witness for C3's amended claim: the all-zero `Math.random` stream
draws `-1` everywhere and the fallback vector is unit-norm. -/
theorem fallback_unit_norm_witness :
    euclidNorm (generateRandomEmbedding 768 (fun _ => 0)) = 1 :=
  fallback_unit_norm (fun _ => 0) (fun _ => by norm_num) ⟨0, by norm_num, by norm_num⟩

/-- C9: with a truthy base URL override, the direct request targets
`<base>/embeddings` when the base ends in `/v1` and
`<base>/v1/embeddings` otherwise, carries model `nomic-embed-text`, the
input text, and a bearer header exactly when an API key is configured;
the try block extracts `data[0].embedding` from the reply and raises
the invalid-response-format error on every absent shape. -/
theorem direct_http_branch (cfg : EmbConfig) (text base : String)
    (net : HttpRequest → Except String (Option DirectBody))
    (sdk : Except String SdkBody)
    (hb : cfg.openaiBaseUrl = some base) (hbne : base ≠ "") :
    (strEndsWith base "/v1" = true →
        (directRequest cfg base text).url = base ++ "/embeddings") ∧
      (strEndsWith base "/v1" = false →
        (directRequest cfg base text).url = base ++ "/v1/embeddings") ∧
      (directRequest cfg base text).model = "nomic-embed-text" ∧
      (directRequest cfg base text).input = text ∧
      (directRequest cfg base text).authHeader.isSome = truthy cfg.openaiApiKey ∧
      (∀ k, cfg.openaiApiKey = some k → k ≠ "" →
        (directRequest cfg base text).authHeader = some ("Bearer " ++ k)) ∧
      (∀ emb rest, net (directRequest cfg base text) =
          Except.ok (some ⟨some (⟨some emb⟩ :: rest)⟩) →
        getEmbeddingsTry cfg text net sdk = Except.ok emb) ∧
      (net (directRequest cfg base text) = Except.ok none →
        getEmbeddingsTry cfg text net sdk = Except.error EmbFailure.invalidResponseFormat) ∧
      (net (directRequest cfg base text) = Except.ok (some ⟨none⟩) →
        getEmbeddingsTry cfg text net sdk = Except.error EmbFailure.invalidResponseFormat) ∧
      (net (directRequest cfg base text) = Except.ok (some ⟨some []⟩) →
        getEmbeddingsTry cfg text net sdk = Except.error EmbFailure.invalidResponseFormat) ∧
      ∀ rest, net (directRequest cfg base text) =
          Except.ok (some ⟨some (⟨none⟩ :: rest)⟩) →
        getEmbeddingsTry cfg text net sdk = Except.error EmbFailure.invalidResponseFormat := by
  have hbeq : (base == "") = false := beq_eq_false_iff_ne.mpr hbne
  have htry : getEmbeddingsTry cfg text net sdk =
      match net (directRequest cfg base text) with
      | Except.error msg => Except.error (EmbFailure.network msg)
      | Except.ok none => Except.error EmbFailure.invalidResponseFormat
      | Except.ok (some body) =>
        match body.data with
        | none => Except.error EmbFailure.invalidResponseFormat
        | some [] => Except.error EmbFailure.invalidResponseFormat
        | some (entry :: _) =>
          match entry.embedding with
          | none => Except.error EmbFailure.invalidResponseFormat
          | some emb => Except.ok emb := by
    unfold getEmbeddingsTry
    rw [hb]
    simp [hbeq]
  refine ⟨?_, ?_, rfl, rfl, ?_, ?_, ?_, ?_, ?_, ?_, ?_⟩
  · intro h
    simp [directRequest, embeddingsUrl, h]
  · intro h
    simp [directRequest, embeddingsUrl, h]
  · rcases hk : cfg.openaiApiKey with _ | k
    · simp [directRequest, truthy, hk]
    · by_cases hke : k = ""
      · simp [directRequest, truthy, hk, hke]
      · simp [directRequest, truthy, hk, hke]
  · intro k hk hke
    simp [directRequest, hk, hke]
  · intro emb rest h
    rw [htry, h]
  · intro h
    rw [htry, h]
  · intro h
    rw [htry, h]
  · intro h
    rw [htry, h]
  · intro rest h
    rw [htry, h]

/-- Witness for C9 at a concrete configuration: a base URL already
ending in `/v1`, a configured key, and a well-shaped reply. -/
theorem direct_http_branch_witness :
    (directRequest ⟨some "secret", some "http://e/v1"⟩ "http://e/v1" "t").url =
        "http://e/v1" ++ "/embeddings" ∧
      (directRequest ⟨some "secret", some "http://e/v1"⟩ "http://e/v1" "t").authHeader =
        some ("Bearer " ++ "secret") ∧
      getEmbeddingsTry ⟨some "secret", some "http://e/v1"⟩ "t"
          (fun _ => Except.ok (some ⟨some [⟨some [(2 : ℝ)]⟩]⟩)) (Except.error "u") =
        Except.ok [(2 : ℝ)] := by
  have h := direct_http_branch ⟨some "secret", some "http://e/v1"⟩ "t" "http://e/v1"
    (fun _ => Except.ok (some ⟨some [⟨some [(2 : ℝ)]⟩]⟩)) (Except.error "u") rfl (by decide)
  exact ⟨h.1 (by decide), h.2.2.2.2.2.1 "secret" rfl (by decide),
    h.2.2.2.2.2.2.1 [(2 : ℝ)] [] rfl⟩

end McpRagdocs
